import Mathlib

/-!
Verification of the auto-updater module
(`src/auto-claude-ui/src/preload/api/index.ts`, app-update part) against its
specification.  The module wires an `autoUpdater` singleton to a renderer
window: it configures auto-download/auto-install at module load, registers
event handlers that forward updater events to the window over IPC, arms a
one-shot startup timer and a repeating poll timer that trigger update checks,
and exposes manual entry points (`checkForUpdates`, `downloadUpdate`,
`quitAndInstall`, `getCurrentVersion`).
-/

namespace AutoClaude

/-- A renderer window (BrowserWindow) identified by an id; messages are sent to
it via `webContents.send`. -/
abbrev Window := Nat

/-- A JavaScript `Error` as used by the module: the handlers read its
`message` and `stack` properties (`stack` may be `undefined`). -/
structure JsError where
  message : String
  stack : Option String
deriving DecidableEq, Repr

/-- The updater library's `UpdateInfo`: the fields the module reads
(`version`, `releaseNotes`, `releaseDate`).  `releaseNotes` is cast by the
source to `string | undefined`, hence `Option String`. -/
structure UpdateInfo where
  version : String
  releaseNotes : Option String
  releaseDate : String
deriving DecidableEq, Repr

/-- The updater library's `UpdateCheckResult`; the module reads only its
`updateInfo` field. -/
structure UpdateCheckResult where
  updateInfo : UpdateInfo
deriving DecidableEq, Repr

/-- The module's `AppUpdateInfo` return shape of a manual check
(`shared/types`): version, optional release notes, release date. -/
structure AppUpdateInfo where
  version : String
  releaseNotes : Option String
  releaseDate : String
deriving DecidableEq, Repr

/-- A download-progress tick from the updater library: the module reads
`percent`, `bytesPerSecond`, `transferred`, `total`.  They are JS numbers;
only their identity matters to the module (it copies them), so they are
modelled as `Nat`. -/
structure ProgressInfo where
  percent : Nat
  bytesPerSecond : Nat
  transferred : Nat
  total : Nat
deriving DecidableEq, Repr

/-- A JavaScript value appearing in an IPC payload field. -/
inductive JsValue where
  | str (s : String)
  | num (n : Nat)
  | undef
deriving DecidableEq, Repr

/-- An optional string property sent as-is: `undefined` when absent. -/
def jsOpt : Option String → JsValue
  | some s => JsValue.str s
  | none => JsValue.undef

/-- The four IPC channels the module sends on (`IPC_CHANNELS.*`). -/
inductive IpcChannel where
  | appUpdateAvailable
  | appUpdateDownloaded
  | appUpdateProgress
  | appUpdateError
deriving DecidableEq, Repr

/-- One `mainWindow.webContents.send(channel, payload)` call: the payload is
the JS object literal, a list of key/value pairs in source order. -/
structure IpcMessage where
  window : Window
  channel : IpcChannel
  payload : List (String × JsValue)
deriving DecidableEq, Repr

/-- The updater-library events the module registers handlers for. -/
inductive UpdaterEvent where
  | updateAvailable (info : UpdateInfo)
  | updateDownloaded (info : UpdateInfo)
  | downloadProgress (p : ProgressInfo)
  | errorEvent (e : JsError)
  | updateNotAvailable (info : UpdateInfo)
  | checkingForUpdate
deriving DecidableEq, Repr

/-- Payload of the `update-available` / `update-downloaded` handlers:
`{ version, releaseNotes, releaseDate }` copied from the event's info. -/
def updateInfoPayload (info : UpdateInfo) : List (String × JsValue) :=
  [("version", JsValue.str info.version),
   ("releaseNotes", jsOpt info.releaseNotes),
   ("releaseDate", JsValue.str info.releaseDate)]

/-- Payload of the `download-progress` handler:
`{ percent, bytesPerSecond, transferred, total }` copied from the tick. -/
def progressPayload (p : ProgressInfo) : List (String × JsValue) :=
  [("percent", JsValue.num p.percent),
   ("bytesPerSecond", JsValue.num p.bytesPerSecond),
   ("transferred", JsValue.num p.transferred),
   ("total", JsValue.num p.total)]

/-- Payload of the `error` handler: `{ message: error.message,
stack: error.stack }`. -/
def errorPayload (e : JsError) : List (String × JsValue) :=
  [("message", JsValue.str e.message),
   ("stack", jsOpt e.stack)]

/-- The `if (mainWindow) { mainWindow.webContents.send(...) }` pattern common
to all four sending handlers: one message when a window is registered, none
otherwise. -/
def sendIf (mainWindow : Option Window) (ch : IpcChannel)
    (payload : List (String × JsValue)) : List IpcMessage :=
  match mainWindow with
  | some w => [{ window := w, channel := ch, payload := payload }]
  | none => []

/-- The event handlers registered by the module, as a function from the
current `mainWindow` and the incoming event to the list of IPC messages sent.
`update-not-available` and `checking-for-update` only log. -/
def handleEvent (mainWindow : Option Window) : UpdaterEvent → List IpcMessage
  | UpdaterEvent.updateAvailable info =>
      sendIf mainWindow IpcChannel.appUpdateAvailable (updateInfoPayload info)
  | UpdaterEvent.updateDownloaded info =>
      sendIf mainWindow IpcChannel.appUpdateDownloaded (updateInfoPayload info)
  | UpdaterEvent.downloadProgress p =>
      sendIf mainWindow IpcChannel.appUpdateProgress (progressPayload p)
  | UpdaterEvent.errorEvent e =>
      sendIf mainWindow IpcChannel.appUpdateError (errorPayload e)
  | UpdaterEvent.updateNotAvailable _ => []
  | UpdaterEvent.checkingForUpdate => []

/-- Messages sent for a sequence of updater events, in order. -/
def emitAll (mainWindow : Option Window) : List UpdaterEvent → List IpcMessage
  | [] => []
  | ev :: evs => handleEvent mainWindow ev ++ emitAll mainWindow evs

/-- The action a timer callback performs.  Both timers run
`autoUpdater.checkForUpdates().catch(log)`. -/
inductive TimerAction where
  | scheduledCheck
deriving DecidableEq, Repr

/-- A timer armed by `setTimeout` (`repeating = false`) or `setInterval`
(`repeating = true`). -/
structure Timer where
  repeating : Bool
  intervalMs : Nat
  action : TimerAction
deriving DecidableEq, Repr

/-- `const FOUR_HOURS = 4 * 60 * 60 * 1000`. -/
def FOUR_HOURS : Nat := 4 * 60 * 60 * 1000

/-- The `setTimeout(..., 3000)` startup check armed by the module. -/
def startupTimer : Timer :=
  { repeating := false, intervalMs := 3000, action := TimerAction.scheduledCheck }

/-- The `setInterval(..., FOUR_HOURS)` periodic check armed by the module. -/
def pollTimer : Timer :=
  { repeating := true, intervalMs := FOUR_HOURS, action := TimerAction.scheduledCheck }

/-- Module-level mutable state: the registered `mainWindow` (initially
`null`) and the timers armed so far. -/
structure UpdaterState where
  mainWindow : Option Window
  timers : List Timer
deriving DecidableEq, Repr

/-- State at module load: `let mainWindow: BrowserWindow | null = null`, no
timers armed. -/
def initialUpdaterState : UpdaterState :=
  { mainWindow := none, timers := [] }

/-- `initializeAppUpdater(window)`: stores the window, registers the event
handlers, and arms the 3-second one-shot timer and the 4-hour repeating
timer.  The source has no single-initialization guard, so each call appends
both timers to whatever is already armed. -/
def initializeAppUpdater (w : Window) (s : UpdaterState) : UpdaterState :=
  { s with mainWindow := some w, timers := s.timers ++ [startupTimer, pollTimer] }

/-- The callback of both scheduled timers:
`autoUpdater.checkForUpdates().catch((error) => console.error(...))` — the
outcome of the library call is given as input; a rejection is caught and only
logged, so the callback itself always resolves. -/
def scheduledCheck (res : Except JsError (Option UpdateCheckResult)) :
    Except JsError Unit :=
  match res with
  | Except.ok _ => Except.ok ()
  | Except.error _ => Except.ok ()

/-- The exported manual `checkForUpdates()`.  The outcome of the library's
`autoUpdater.checkForUpdates()` is given as input; `currentVersion` is
`autoUpdater.currentVersion.version`.  A null result returns null; an equal
version returns null; a newer version returns the `AppUpdateInfo`; a
rejection is logged and rethrown (`throw error`). -/
def checkForUpdates (currentVersion : String)
    (res : Except JsError (Option UpdateCheckResult)) :
    Except JsError (Option AppUpdateInfo) :=
  match res with
  | Except.error e => Except.error e
  | Except.ok none => Except.ok none
  | Except.ok (some result) =>
      let updateAvailable : Bool := result.updateInfo.version != currentVersion
      if !updateAvailable then
        Except.ok none
      else
        Except.ok (some { version := result.updateInfo.version,
                          releaseNotes := result.updateInfo.releaseNotes,
                          releaseDate := result.updateInfo.releaseDate })

/-- The arguments of a call to the installer,
`autoUpdater.quitAndInstall(isSilent, isForceRunAfter)`. -/
structure InstallCall where
  isSilent : Bool
  isForceRunAfter : Bool
deriving DecidableEq, Repr

/-- The exported `quitAndInstall()`: the source calls
`autoUpdater.quitAndInstall(false, true)`. -/
def quitAndInstall : InstallCall :=
  { isSilent := false, isForceRunAfter := true }

/-- The `autoUpdater` configuration flags the module writes. -/
structure AutoUpdaterConfig where
  autoDownload : Bool
  autoInstallOnAppQuit : Bool
deriving DecidableEq, Repr

/-- Configuration performed at module load:
`autoUpdater.autoDownload = true; autoUpdater.autoInstallOnAppQuit = true`. -/
def moduleLoadConfig : AutoUpdaterConfig :=
  { autoDownload := true, autoInstallOnAppQuit := true }

/-- The lifecycle phases of the spec's data model. -/
inductive Phase where
  | idle
  | checking
  | available
  | downloading
  | downloaded
  | installPending
  | error
deriving DecidableEq, Repr

/-- Modelled from the spec: the update-lifecycle state owned by the updater
library (the library's state machine is dependency code, not under src/):
`phase`, the optional `pendingInfo` of a discovered update, and `lastError`
present only in phase Error. -/
structure LibState where
  phase : Phase
  pendingInfo : Option UpdateInfo
  lastError : Option JsError
deriving DecidableEq, Repr

/-- Outcome of one library-level check: the new state, the value the returned
promise settles with, and how many release-source queries and download starts
the call performed. -/
structure LibCheckOutcome where
  state : LibState
  result : Except JsError (Option UpdateCheckResult)
  queriesIssued : Nat
  downloadsStarted : Nat
deriving Repr

/-- Modelled from the spec: `autoUpdater.checkForUpdates` of the updater
library, whose state machine is not under src/.  Per the spec, "calling while
Downloading/Downloaded is a no-op that returns the current pendingInfo
without re-querying, to avoid restarting an in-flight download"; otherwise
the call queries the release source: on success with a version equal to
`currentVersion` it clears `pendingInfo` and returns to Idle; with a newer
version it stores `pendingInfo` and, when the auto-download flag is set,
immediately starts the download; on query failure it records the failure,
enters phase Error and rejects with it. -/
def libCheckForUpdates (s : LibState) (autoDownload : Bool)
    (currentVersion : String) (query : Except JsError UpdateInfo) :
    LibCheckOutcome :=
  match s.phase with
  | Phase.downloading =>
      { state := s,
        result := Except.ok (s.pendingInfo.map (fun i => { updateInfo := i })),
        queriesIssued := 0, downloadsStarted := 0 }
  | Phase.downloaded =>
      { state := s,
        result := Except.ok (s.pendingInfo.map (fun i => { updateInfo := i })),
        queriesIssued := 0, downloadsStarted := 0 }
  | _ =>
      match query with
      | Except.error e =>
          { state := { phase := Phase.error, pendingInfo := s.pendingInfo,
                       lastError := some e },
            result := Except.error e, queriesIssued := 1, downloadsStarted := 0 }
      | Except.ok info =>
          if info.version = currentVersion then
            { state := { phase := Phase.idle, pendingInfo := none,
                         lastError := none },
              result := Except.ok (some { updateInfo := info }),
              queriesIssued := 1, downloadsStarted := 0 }
          else
            { state := { phase := (if autoDownload then Phase.downloading
                                   else Phase.available),
                         pendingInfo := some info, lastError := none },
              result := Except.ok (some { updateInfo := info }),
              queriesIssued := 1,
              downloadsStarted := if autoDownload then 1 else 0 }

/-- Modelled from the spec: the updater-library events raised towards the
module's handlers by a successful check that finds no newer version (library
behaviour, not under src/) — a `checking-for-update` event followed by an
`update-not-available` event, and nothing else ("emits no event for
automatic calls in this case, only logs"). -/
def noUpdateCheckEvents (info : UpdateInfo) : List UpdaterEvent :=
  [UpdaterEvent.checkingForUpdate, UpdaterEvent.updateNotAvailable info]

/-- Modelled from the spec: the install-on-quit behaviour behind the updater
library's `autoInstallOnAppQuit` flag (library code, not under src/; the
source configures it with the comment "Automatically install on app quit"):
when the flag is set and an update has been downloaded, quitting the
application installs it, with no `quitAndInstall` call required. -/
def installsOnQuit (cfg : AutoUpdaterConfig) (updateDownloaded : Bool) : Bool :=
  cfg.autoInstallOnAppQuit && updateDownloaded

/-- Sample newer-version update info used as a concrete witness input. -/
def sampleInfo : UpdateInfo :=
  { version := "1.3.0", releaseNotes := none, releaseDate := "2024-05-01" }

/-- Sample library state in phase Downloading, used as a concrete witness
input. -/
def sampleDownloading : LibState :=
  { phase := Phase.downloading, pendingInfo := some sampleInfo,
    lastError := none }

/-- Claim C1 counterexample: the install invocation from phase Downloaded is
`autoUpdater.quitAndInstall(false, true)` — its first argument `isSilent` is
`false`, so the claimed `install(silent=true, relaunch=true)` call does not
happen. -/
theorem quitAndInstall_not_silent :
    ¬ (quitAndInstall.isSilent = true ∧ quitAndInstall.isForceRunAfter = true) := by
  decide

/-- Claim C1 (amended): every invocation of the install operation
(`quitAndInstall`) invokes the installer requesting a non-silent installation
with relaunch afterwards, i.e. `install(silent=false, relaunch=true)`. -/
theorem quitAndInstall_args :
    quitAndInstall = { isSilent := false, isForceRunAfter := true } := rfl

/-- Claim C2 counterexample: at the concrete error
`{message := "boom", stack := "trace"}` with a registered window, the
update-error message's payload keys are `message` and `stack` — there is no
`cause` key, so the payload is not `{message, cause}`. -/
theorem updateError_payload_has_no_cause :
    (handleEvent (some 0)
        (UpdaterEvent.errorEvent { message := "boom", stack := some "trace" })).map
        (fun m => m.payload.map Prod.fst) = [["message", "stack"]] ∧
    "cause" ∉
      (errorPayload { message := "boom", stack := some "trace" }).map Prod.fst := by
  exact ⟨rfl, by decide⟩

/-- Claim C2 (amended): every update-error event sent to the presentation
layer carries the payload `{message, stack}` copied from the underlying
failure. -/
theorem updateError_event_payload (w : Window) (e : JsError) :
    handleEvent (some w) (UpdaterEvent.errorEvent e) =
      [{ window := w, channel := IpcChannel.appUpdateError,
         payload := [("message", JsValue.str e.message),
                     ("stack", jsOpt e.stack)] }] := rfl

/-- Claim C3: a scheduler-triggered check never propagates a failure across
the scheduler boundary — the timer callback resolves for every outcome of the
library call, failure included — while a manual `checkForUpdates` call
rethrows the same failure to its immediate caller. -/
theorem check_failure_routing (e : JsError) (cv : String)
    (r : Except JsError (Option UpdateCheckResult)) :
    scheduledCheck r = Except.ok () ∧
    scheduledCheck (Except.error e) = Except.ok () ∧
    checkForUpdates cv (Except.error e) = Except.error e := by
  refine ⟨?_, rfl, rfl⟩
  cases r <;> rfl

/-- Claim C4 counterexample: calling `initializeAppUpdater` twice from the
module-load state stacks duplicate timers — afterwards there is not exactly
one one-shot timer and one repeating timer (there are two of each). -/
theorem init_twice_duplicates_timers :
    ¬ (((initializeAppUpdater 0 (initializeAppUpdater 0
            initialUpdaterState)).timers.filter (fun t => !t.repeating)).length = 1 ∧
        ((initializeAppUpdater 0 (initializeAppUpdater 0
            initialUpdaterState)).timers.filter (fun t => t.repeating)).length = 1) := by
  decide

/-- Claim C4 (amended): the source has no single-initialization guard, so
calling `initializeAppUpdater` a second time stacks duplicate timers: after
two calls there are two one-shot startup timers and two repeating poll
timers. -/
theorem init_twice_timer_counts (w w' : Window) :
    (initializeAppUpdater w' (initializeAppUpdater w initialUpdaterState)).timers
      = [startupTimer, pollTimer, startupTimer, pollTimer] ∧
    ((initializeAppUpdater w' (initializeAppUpdater w
        initialUpdaterState)).timers.filter (fun t => !t.repeating)).length = 2 ∧
    ((initializeAppUpdater w' (initializeAppUpdater w
        initialUpdaterState)).timers.filter (fun t => t.repeating)).length = 2 := by
  exact ⟨rfl, rfl, rfl⟩

/-- Claim C5: starting the scheduler (`initializeAppUpdater` from the
module-load state) arms exactly one one-shot timer firing an update check
3 seconds (3000 ms) after start, and exactly one repeating timer firing an
update check every 4 hours (4·60·60·1000 ms). -/
theorem init_arms_timers (w : Window) :
    (initializeAppUpdater w initialUpdaterState).timers = [startupTimer, pollTimer] ∧
    startupTimer.repeating = false ∧
    startupTimer.intervalMs = 3 * 1000 ∧
    startupTimer.action = TimerAction.scheduledCheck ∧
    pollTimer.repeating = true ∧
    pollTimer.intervalMs = 4 * 60 * 60 * 1000 ∧
    pollTimer.action = TimerAction.scheduledCheck := by
  refine ⟨rfl, rfl, by decide, rfl, rfl, by decide, rfl⟩

/-- Claim C6: when a successful check reports a version equal to
`currentVersion`, a manual `checkForUpdates` call returns null, and the
events the library raises in this case (`checking-for-update`,
`update-not-available`) send no IPC message — the no-update case is only
logged. -/
theorem manual_check_no_update (w : Window) (info : UpdateInfo) (cv : String)
    (h : info.version = cv) :
    checkForUpdates cv (Except.ok (some { updateInfo := info })) = Except.ok none ∧
    emitAll (some w) (noUpdateCheckEvents info) = [] := by
  constructor
  · simp [checkForUpdates, h]
  · rfl

/-- Claim C6 witness: the spec's scenario — currentVersion "1.2.0", release
source reports "1.2.0". -/
theorem manual_check_no_update_witness :
    ((UpdateInfo.mk "1.2.0" none "2024-05-01").version = "1.2.0") ∧
    (checkForUpdates "1.2.0"
        (Except.ok (some { updateInfo := UpdateInfo.mk "1.2.0" none "2024-05-01" }))
        = Except.ok none ∧
     emitAll (some 0) (noUpdateCheckEvents (UpdateInfo.mk "1.2.0" none "2024-05-01")) = []) :=
  ⟨rfl, manual_check_no_update 0 (UpdateInfo.mk "1.2.0" none "2024-05-01") "1.2.0" rfl⟩

/-- Claim C7: each progress tick delivered while a window is registered
produces exactly one download-progress message whose payload
`{percent, bytesPerSecond, transferred, total}` is copied from the tick, and
a sequence of ticks is forwarded one-for-one with no de-duplication or
throttling. -/
theorem download_progress_forwarded (w : Window) (p : ProgressInfo)
    (ticks : List ProgressInfo) :
    handleEvent (some w) (UpdaterEvent.downloadProgress p) =
      [{ window := w, channel := IpcChannel.appUpdateProgress,
         payload := [("percent", JsValue.num p.percent),
                     ("bytesPerSecond", JsValue.num p.bytesPerSecond),
                     ("transferred", JsValue.num p.transferred),
                     ("total", JsValue.num p.total)] }] ∧
    (emitAll (some w) (ticks.map UpdaterEvent.downloadProgress)).length
      = ticks.length := by
  refine ⟨rfl, ?_⟩
  induction ticks with
  | nil => rfl
  | cons t ts ih =>
      simp [emitAll, handleEvent, sendIf, ih]

/-- Claim C8: a manual check while the library is in phase Downloading or
Downloaded is a no-op — the state is unchanged, the release source is not
re-queried, no duplicate download starts, and the wrapper returns the current
`pendingInfo`. -/
theorem check_noop_while_downloading (s : LibState) (ad : Bool) (cv : String)
    (q : Except JsError UpdateInfo) (i : UpdateInfo)
    (hphase : s.phase = Phase.downloading ∨ s.phase = Phase.downloaded)
    (hpend : s.pendingInfo = some i) (hver : i.version ≠ cv) :
    (libCheckForUpdates s ad cv q).state = s ∧
    (libCheckForUpdates s ad cv q).queriesIssued = 0 ∧
    (libCheckForUpdates s ad cv q).downloadsStarted = 0 ∧
    checkForUpdates cv (libCheckForUpdates s ad cv q).result =
      Except.ok (some { version := i.version, releaseNotes := i.releaseNotes,
                        releaseDate := i.releaseDate }) := by
  obtain ⟨ph, pend, le⟩ := s
  simp only at hpend
  subst hpend
  rcases hphase with h | h <;> simp only at h <;> subst h <;>
    refine ⟨rfl, rfl, rfl, ?_⟩ <;> simp [libCheckForUpdates, checkForUpdates, hver]

/-- Claim C8 witness: phase Downloading with pending version "1.3.0" and
current version "1.2.0". -/
theorem check_noop_while_downloading_witness :
    (sampleDownloading.phase = Phase.downloading ∨
     sampleDownloading.phase = Phase.downloaded) ∧
    sampleDownloading.pendingInfo = some sampleInfo ∧
    sampleInfo.version ≠ "1.2.0" ∧
    ((libCheckForUpdates sampleDownloading true "1.2.0"
        (Except.ok sampleInfo)).state = sampleDownloading ∧
     (libCheckForUpdates sampleDownloading true "1.2.0"
        (Except.ok sampleInfo)).queriesIssued = 0 ∧
     (libCheckForUpdates sampleDownloading true "1.2.0"
        (Except.ok sampleInfo)).downloadsStarted = 0 ∧
     checkForUpdates "1.2.0"
        (libCheckForUpdates sampleDownloading true "1.2.0"
          (Except.ok sampleInfo)).result =
       Except.ok (some { version := sampleInfo.version,
                         releaseNotes := sampleInfo.releaseNotes,
                         releaseDate := sampleInfo.releaseDate })) :=
  ⟨Or.inl rfl, rfl, by decide,
   check_noop_while_downloading sampleDownloading true "1.2.0"
     (Except.ok sampleInfo) sampleInfo (Or.inl rfl) rfl (by decide)⟩

/-- Claim C9: with no registered main window (`mainWindow = null`, as at
module load before `initializeAppUpdater` runs), every updater event handler
— update-available, update-downloaded, download-progress and error — returns
normally and sends no IPC message: events are silently dropped. -/
theorem no_window_drops_events (ev : UpdaterEvent) :
    initialUpdaterState.mainWindow = none ∧ handleEvent none ev = [] := by
  refine ⟨rfl, ?_⟩
  cases ev <;> rfl

/-- Claim C10: at module load the updater is configured with
`autoDownload = true` and `autoInstallOnAppQuit = true`, so a downloaded
update is installed when the application quits even if `quitAndInstall` is
never called. -/
theorem module_load_auto_install :
    moduleLoadConfig.autoDownload = true ∧
    moduleLoadConfig.autoInstallOnAppQuit = true ∧
    installsOnQuit moduleLoadConfig true = true := by
  decide

end AutoClaude
